import Mathlib

/-!
Verification of the cogni-icp-backend canister (src/cogni-icp-backend/src/lib.rs
and src/cogni-icp-backend/src/models/tutor.rs).

The Rust handlers are shallowly embedded as pure Lean functions: canister state
(the stable maps behind `TUTORS`, `CHAT_SESSIONS`, `CHAT_MESSAGES`) is passed
explicitly, the outbound HTTP transport (`ic_cdk` `http_request`) is a function
parameter, and ambient effects (`ic_cdk::caller()`, `ic_cdk::api::time()`,
`state::next_id`, `generate_secure_id`) are explicit arguments.  `serde_json`
(an external library dependency) is modelled by a small executable JSON parser
below; Rust `f64` literals are modelled as rationals (only the literals 0.7 and
0.3 ever arise in the properties considered).  `Principal` is an opaque caller
identity and is modelled as a string.
-/

namespace Cogni

/-- Opaque caller identity (`candid::Principal`). -/
abbrev Principal := String

/-- `models::user::UserSettings` (the file `models/user.rs` is not in the
source snapshot; the fields are taken from the construction sites in
`lib.rs`, e.g. `create_user`).  Only the fields read by the AI pipeline are
relevant here. -/
structure UserSettings where
  learning_style : String
  preferred_language : String
  difficulty_level : String
  daily_goal_hours : Nat
  two_factor_enabled : Bool
  font_size : String
  contrast : String
  ai_interaction_style : String
  profile_visibility : String
  activity_sharing : String
  deriving DecidableEq, Repr

/-- `models::tutor::Tutor`.  `voice_settings : HashMap<String,String>` is
modelled as an association list. -/
structure Tutor where
  id : Nat
  public_id : String
  user_id : Principal
  name : String
  description : String
  teaching_style : String
  personality : String
  expertise : List String
  knowledge_base : List String
  is_pinned : Bool
  avatar_url : Option String
  voice_id : Option String
  voice_settings : List (String × String)
  created_at : Nat
  updated_at : Nat
  deriving DecidableEq, Repr

/-- `models::tutor::ChatSession`. -/
structure ChatSession where
  id : String
  tutor_id : String
  user_id : Principal
  topic : String
  status : String
  created_at : Nat
  updated_at : Nat
  deriving DecidableEq, Repr

/-- `models::tutor::ChatMessage`. -/
structure ChatMessage where
  id : String
  session_id : String
  sender : String
  content : String
  timestamp : Nat
  has_audio : Option Bool
  deriving DecidableEq, Repr

/-- `models::tutor::CourseModule`. -/
structure CourseModule where
  id : Nat
  title : String
  description : String
  order : Nat
  content : Option String
  status : String
  deriving DecidableEq, Repr

/-- `models::tutor::CourseOutline`. -/
structure CourseOutline where
  title : String
  description : String
  learning_objectives : List String
  estimated_duration : String
  difficulty_level : String
  modules : List CourseModule
  deriving DecidableEq, Repr

/-- `models::tutor::TopicSuggestion`. -/
structure TopicSuggestion where
  topic : String
  description : String
  difficulty : String
  expertise_area : String
  deriving DecidableEq, Repr

/-- `models::tutor::TopicValidation`; `confidence : f64` is modelled as `ℚ`. -/
structure TopicValidation where
  is_relevant : Bool
  confidence : ℚ
  reasoning : String
  suggested_alternatives : List String
  deriving DecidableEq, Repr

/-! ### String helpers modelling the Rust `str` methods used by `lib.rs`
(restricted to ASCII whitespace/case, which is all the code relies on). -/

/-- Whitespace as recognised by the model of Rust `str::trim` (ASCII subset of
Unicode `White_Space`). -/
def wsChar (c : Char) : Bool :=
  c == ' ' || c == '\t' || c == '\n' || c == '\r'

/-- Trim from the left, then from the right (model of `str::trim`). -/
def rustTrimList (l : List Char) : List Char :=
  ((l.dropWhile wsChar).reverse.dropWhile wsChar).reverse

/-- Model of `str::trim`. -/
def rustTrim (s : String) : String :=
  String.mk (rustTrimList s.data)

/-- Split a char list at every `\n` (keeping empty segments). -/
def splitNlAux (acc : List Char) : List Char → List String
  | [] => [String.mk acc.reverse]
  | c :: rest =>
    if c = '\n' then String.mk acc.reverse :: splitNlAux [] rest
    else splitNlAux (c :: acc) rest

/-- Model of `str::lines`: split on `\n`, dropping one trailing empty line,
and strip a trailing `\r` from each line. -/
def rustLines (s : String) : List String :=
  match s.data with
  | [] => []
  | l =>
    let parts := splitNlAux [] l
    let parts := if l.getLast? = some '\n' then parts.dropLast else parts
    parts.map fun line =>
      if line.data.getLast? = some '\r' then String.mk line.data.dropLast else line

/-- Model of `[String]::join` / `String.intercalate` (structural, so that it
evaluates by definitional reduction). -/
def joinStrings (sep : String) : List String → String
  | [] => ""
  | [x] => x
  | x :: xs => x ++ sep ++ joinStrings sep xs

/-- Model of `str::to_lowercase` (ASCII). -/
def lowerStr (s : String) : String :=
  String.mk (s.data.map Char.toLower)

/-- Substring test on char lists. -/
def listHasSub (pat : List Char) : List Char → Bool
  | [] => pat.isEmpty
  | c :: rest => pat.isPrefixOf (c :: rest) || listHasSub pat rest

/-- Model of Rust `str::contains(&str)`. -/
def strHasSub (s pat : String) : Bool :=
  listHasSub pat.data s.data

/-- Model of `str::starts_with(char)`. -/
def startsWithChar (s : String) (c : Char) : Bool :=
  match s.data with
  | [] => false
  | d :: _ => d == c

/-- Model of `str::ends_with(char)`. -/
def endsWithChar (s : String) (c : Char) : Bool :=
  match s.data.getLast? with
  | none => false
  | some d => d == c

/-- Model of `str::find(char)`: index of first occurrence (the code only ever
slices at these indices, so char indices serve for byte indices). -/
def charFind (s : String) (c : Char) : Option Nat :=
  s.data.indexOf? c |>.map id

/-- Model of `str::rfind(char)`: index of last occurrence. -/
def charRfind (s : String) (c : Char) : Option Nat :=
  match (s.data.reverse.indexOf? c) with
  | none => none
  | some i => some (s.data.length - 1 - i)

/-- Model of the Rust slice `&s[start..=end]` (requires `start ≤ end + 1`;
the one use site additionally guards against the panicking case, see
`generate_course_modules`). -/
def sliceInclusive (s : String) (start stop : Nat) : String :=
  String.mk ((s.data.drop start).take (stop + 1 - start))

/-! ### A model of `serde_json` (external library): a strict JSON parser.

Numbers are kept as their raw lexed text in `Json.num`; typed decoders below
interpret them where the Rust code deserialises into numeric fields.
Divergences from `serde_json` that no theorem below exercises: duplicate
object keys (first occurrence wins here, last wins there) and `\u` surrogate
pairs (not combined here). -/

inductive Json where
  | null : Json
  | bool : Bool → Json
  | num : String → Json
  | str : String → Json
  | arr : List Json → Json
  | obj : List (String × Json) → Json

/-- Skip JSON whitespace. -/
def skipWs : List Char → List Char
  | c :: rest => if wsChar c then skipWs rest else c :: rest
  | [] => []

/-- Hex digit value. -/
def hexVal (c : Char) : Option Nat :=
  if '0' ≤ c ∧ c ≤ '9' then some (c.toNat - '0'.toNat)
  else if 'a' ≤ c ∧ c ≤ 'f' then some (c.toNat - 'a'.toNat + 10)
  else if 'A' ≤ c ∧ c ≤ 'F' then some (c.toNat - 'A'.toNat + 10)
  else none

/-- Parse the body of a JSON string (after the opening quote), returning the
decoded string and the remaining input. -/
def parseStrBody (acc : List Char) : List Char → Option (String × List Char)
  | [] => none
  | '"' :: rest => some (String.mk acc.reverse, rest)
  | '\\' :: esc => match esc with
    | '"' :: rest => parseStrBody ('"' :: acc) rest
    | '\\' :: rest => parseStrBody ('\\' :: acc) rest
    | '/' :: rest => parseStrBody ('/' :: acc) rest
    | 'b' :: rest => parseStrBody ('\x08' :: acc) rest
    | 'f' :: rest => parseStrBody ('\x0c' :: acc) rest
    | 'n' :: rest => parseStrBody ('\n' :: acc) rest
    | 'r' :: rest => parseStrBody ('\r' :: acc) rest
    | 't' :: rest => parseStrBody ('\t' :: acc) rest
    | 'u' :: h1 :: h2 :: h3 :: h4 :: rest =>
      match hexVal h1, hexVal h2, hexVal h3, hexVal h4 with
      | some a, some b, some c, some d =>
        parseStrBody (Char.ofNat (((a * 16 + b) * 16 + c) * 16 + d) :: acc) rest
      | _, _, _, _ => none
    | _ => none
  | c :: rest => if c.toNat < 32 then none else parseStrBody (c :: acc) rest

/-- Longest prefix of decimal digits. -/
def digitSpan : List Char → List Char × List Char
  | [] => ([], [])
  | c :: rest =>
    if c.isDigit then
      let (a, b) := digitSpan rest
      (c :: a, b)
    else ([], c :: rest)

/-- Lex a JSON number, returning its raw text and the remaining input. -/
def lexNumber (l : List Char) : Option (String × List Char) :=
  let (sgn, l1) : List Char × List Char :=
    match l with
    | '-' :: r => (['-'], r)
    | _ => ([], l)
  match l1 with
  | '0' :: r1 => lexFrac (sgn ++ ['0']) r1
  | c :: _ =>
    if c.isDigit then
      let (ds, r1) := digitSpan l1
      lexFrac (sgn ++ ds) r1
    else none
  | [] => none
where
  /-- Optional fraction part, then exponent. -/
  lexFrac (acc : List Char) (l : List Char) : Option (String × List Char) :=
    match l with
    | '.' :: r =>
      let (ds, r1) := digitSpan r
      if ds.isEmpty then none else lexExp (acc ++ '.' :: ds) r1
    | _ => lexExp acc l
  /-- Optional exponent part. -/
  lexExp (acc : List Char) (l : List Char) : Option (String × List Char) :=
    match l with
    | c :: r =>
      if c == 'e' || c == 'E' then
        let (sgn2, r1) : List Char × List Char :=
          match r with
          | '+' :: r2 => (['+'], r2)
          | '-' :: r2 => (['-'], r2)
          | _ => ([], r)
        let (ds, r2) := digitSpan r1
        if ds.isEmpty then none else some (String.mk (acc ++ c :: sgn2 ++ ds), r2)
      else some (String.mk acc, c :: r)
    | [] => some (String.mk acc, [])

mutual

/-- Parse one JSON value (fuel-indexed; `jsonFromStr` supplies ample fuel). -/
def parseValue : Nat → List Char → Option (Json × List Char)
  | 0, _ => none
  | _ + 1, 'n' :: 'u' :: 'l' :: 'l' :: r => some (.null, r)
  | _ + 1, 't' :: 'r' :: 'u' :: 'e' :: r => some (.bool true, r)
  | _ + 1, 'f' :: 'a' :: 'l' :: 's' :: 'e' :: r => some (.bool false, r)
  | _ + 1, '"' :: r => (parseStrBody [] r).map fun p => (.str p.1, p.2)
  | fuel + 1, '[' :: r =>
    (match skipWs r with
     | ']' :: r2 => some (.arr [], r2)
     | r2 => parseItems fuel r2 [])
  | fuel + 1, '\x7b' :: r =>
    (match skipWs r with
     | '\x7d' :: r2 => some (.obj [], r2)
     | r2 => parseMembers fuel r2 [])
  | _ + 1, l => (lexNumber l).map fun p => (.num p.1, p.2)

/-- Parse the items of a non-empty JSON array. -/
def parseItems : Nat → List Char → List Json → Option (Json × List Char)
  | 0, _, _ => none
  | fuel + 1, l, acc =>
    match parseValue fuel l with
    | none => none
    | some (v, r) =>
      match skipWs r with
      | ',' :: r2 => parseItems fuel (skipWs r2) (acc ++ [v])
      | ']' :: r2 => some (.arr (acc ++ [v]), r2)
      | _ => none

/-- Parse the members of a non-empty JSON object. -/
def parseMembers : Nat → List Char → List (String × Json) →
    Option (Json × List Char)
  | 0, _, _ => none
  | fuel + 1, l, acc =>
    match l with
    | '"' :: r =>
      match parseStrBody [] r with
      | none => none
      | some (key, r1) =>
        match skipWs r1 with
        | ':' :: r2 =>
          match parseValue fuel (skipWs r2) with
          | none => none
          | some (v, r3) =>
            match skipWs r3 with
            | ',' :: r4 => parseMembers fuel (skipWs r4) (acc ++ [(key, v)])
            | '\x7d' :: r4 => some (.obj (acc ++ [(key, v)]), r4)
            | _ => none
        | _ => none
    | _ => none

end

/-- Model of `serde_json::from_str::<serde_json::Value>`: parse a complete
JSON document (whole input consumed up to trailing whitespace). -/
def jsonFromStr (s : String) : Option Json :=
  let l := skipWs s.data
  match parseValue (2 * l.length + 2) l with
  | none => none
  | some (v, rest) => if (skipWs rest).isEmpty then some v else none

/-- Model of `serde_json::Value` indexing `v["key"]`: field of an object, and
`Null` for a missing field or a non-object. -/
def Json.getField (j : Json) (key : String) : Json :=
  match j with
  | .obj fields =>
    match fields.find? (fun p => p.1 == key) with
    | some p => p.2
    | none => .null
  | _ => .null

/-- Model of `Value::as_str`. -/
def Json.asStr : Json → Option String
  | .str s => some s
  | _ => none

/-- Model of `Value::as_array`. -/
def Json.asArr : Json → Option (List Json)
  | .arr a => some a
  | _ => none

/-- Deserialise a JSON boolean. -/
def Json.asBool : Json → Option Bool
  | .bool b => some b
  | _ => none

/-- Decimal digits to a natural number. -/
def natOfDigits (l : List Char) : Nat :=
  l.foldl (fun a c => a * 10 + (c.toNat - '0'.toNat)) 0

/-- Interpret a lexed JSON number as a rational (model of `f64`
deserialisation; floats are modelled as exact rationals). -/
def qOfJsonNum (raw : String) : ℚ :=
  let l := raw.data
  let (neg, l1) : Bool × List Char :=
    match l with
    | '-' :: r => (true, r)
    | _ => (false, l)
  let (ip, l2) := digitSpan l1
  let (fp, l3) : List Char × List Char :=
    match l2 with
    | '.' :: r => digitSpan r
    | _ => ([], l2)
  let (eneg, emag) : Bool × Nat :=
    match l3 with
    | _ :: r =>
      let (esgn, r1) : Bool × List Char :=
        match r with
        | '+' :: r2 => (false, r2)
        | '-' :: r2 => (true, r2)
        | _ => (false, r)
      let (ed, _) := digitSpan r1
      (esgn, natOfDigits ed)
    | [] => (false, 0)
  let denom : Nat := 10 ^ fp.length
  let mant : ℚ :=
    ((natOfDigits ip * denom + natOfDigits fp : Nat) : ℚ) / (denom : ℚ)
  let signed : ℚ := if neg then -mant else mant
  if eneg then signed / ((10 ^ emag : Nat) : ℚ)
  else signed * ((10 ^ emag : Nat) : ℚ)

/-- Deserialise into `f64` (numbers only, as `serde_json` does). -/
def Json.asF64 : Json → Option ℚ
  | .num raw => some (qOfJsonNum raw)
  | _ => none

/-- Deserialise into `u64`: a plain non-negative integer within range. -/
def Json.asU64 : Json → Option Nat
  | .num raw =>
    if raw.data ≠ [] ∧ raw.data.all Char.isDigit ∧ natOfDigits raw.data < 2 ^ 64
    then some (natOfDigits raw.data) else none
  | _ => none

/-- Deserialise into `u32`. -/
def Json.asU32 : Json → Option Nat
  | .num raw =>
    if raw.data ≠ [] ∧ raw.data.all Char.isDigit ∧ natOfDigits raw.data < 2 ^ 32
    then some (natOfDigits raw.data) else none
  | _ => none

/-- Deserialise a JSON array of strings (`Vec<String>`). -/
def decodeStringList (j : Json) : Option (List String) :=
  j.asArr.bind fun items => items.mapM Json.asStr

/-- Model of `serde_json::from_str::<Vec<String>>`. -/
def fromStrStringList (s : String) : Option (List String) :=
  (jsonFromStr s).bind decodeStringList

/-- Model of `serde_json::from_str::<String>`. -/
def fromStrOneString (s : String) : Option String :=
  (jsonFromStr s).bind Json.asStr

/-- Deserialise a `TopicSuggestion` (derived `serde` impl: all four fields
required, unknown fields ignored). -/
def decodeTopicSuggestion (j : Json) : Option TopicSuggestion :=
  match j with
  | .obj _ => do
    let topic ← (j.getField "topic").asStr
    let description ← (j.getField "description").asStr
    let difficulty ← (j.getField "difficulty").asStr
    let expertise_area ← (j.getField "expertise_area").asStr
    pure ⟨topic, description, difficulty, expertise_area⟩
  | _ => none

/-- Model of `serde_json::from_str::<Vec<TopicSuggestion>>`. -/
def fromStrTopicSuggestions (s : String) : Option (List TopicSuggestion) :=
  ((jsonFromStr s).bind Json.asArr).bind fun items =>
    items.mapM decodeTopicSuggestion

/-- Deserialise a `TopicValidation`. -/
def decodeTopicValidation (j : Json) : Option TopicValidation :=
  match j with
  | .obj _ => do
    let is_relevant ← (j.getField "is_relevant").asBool
    let confidence ← (j.getField "confidence").asF64
    let reasoning ← (j.getField "reasoning").asStr
    let suggested_alternatives ← decodeStringList (j.getField "suggested_alternatives")
    pure ⟨is_relevant, confidence, reasoning, suggested_alternatives⟩
  | _ => none

/-- Model of `serde_json::from_str::<TopicValidation>`. -/
def fromStrTopicValidation (s : String) : Option TopicValidation :=
  (jsonFromStr s).bind decodeTopicValidation

/-- Deserialise an `Option<String>` field (derived `serde`: missing or `null`
is `None`). -/
def decodeOptString (j : Json) : Option (Option String) :=
  match j with
  | .null => some none
  | .str s => some (some s)
  | _ => none

/-- Deserialise a `CourseModule`. -/
def decodeCourseModule (j : Json) : Option CourseModule :=
  match j with
  | .obj _ => do
    let id ← (j.getField "id").asU64
    let title ← (j.getField "title").asStr
    let description ← (j.getField "description").asStr
    let order ← (j.getField "order").asU32
    let content ← decodeOptString (j.getField "content")
    let status ← (j.getField "status").asStr
    pure ⟨id, title, description, order, content, status⟩
  | _ => none

/-- Deserialise a `CourseOutline`. -/
def decodeCourseOutline (j : Json) : Option CourseOutline :=
  match j with
  | .obj _ => do
    let title ← (j.getField "title").asStr
    let description ← (j.getField "description").asStr
    let learning_objectives ← decodeStringList (j.getField "learning_objectives")
    let estimated_duration ← (j.getField "estimated_duration").asStr
    let difficulty_level ← (j.getField "difficulty_level").asStr
    let modules ← (j.getField "modules").asArr.bind fun items =>
      items.mapM decodeCourseModule
    pure ⟨title, description, learning_objectives, estimated_duration,
      difficulty_level, modules⟩
  | _ => none

/-- Model of `serde_json::from_str::<CourseOutline>`. -/
def fromStrCourseOutline (s : String) : Option CourseOutline :=
  (jsonFromStr s).bind decodeCourseOutline

/-! ### AI Gateway: `call_groq_ai` (lib.rs lines 893-990)

The outbound `http_request` call is a parameter `transport : Nat →
TransportResult` giving the outcome of each attempt (1-based attempt index;
the request itself is identical on every attempt, `request.clone()`).  The
response body `Vec<u8>` is modelled as a `String` (`String::from_utf8` is
modelled as succeeding; no property below involves a non-UTF-8 body).  The
busy-wait pacing loop between attempts (a pure fold) has no observable
effect and is not modelled. -/

/-- The payload of a completed HTTPS call. -/
structure HttpResponse where
  status : Nat
  body : String
  deriving DecidableEq, Repr

/-- Outcome of one `http_request` attempt: `Ok((response,))` or
`Err((code, message))`; the `RejectionCode` is modelled as the string its
`Debug` formatting prints. -/
inductive TransportResult where
  | success : HttpResponse → TransportResult
  | failure : (code : String) → (message : String) → TransportResult
  deriving DecidableEq, Repr

/-- `max_retries` (lib.rs line 931). -/
def groqMaxRetries : Nat := 3

/-- The canned fallback reply (lib.rs line 989). -/
def groqFallback (prompt : String) : String :=
  "I apologize, but I\x27m experiencing technical difficulties with my AI service right now. However, I can still help you with your question: \"" ++
    prompt ++ "\" Please try asking me again in a moment, or feel free to rephrase your question."

/-- Placeholder for the `Display` text of a `serde_json` error (interpolated
into error messages the code builds with `format!`; no property inspects it). -/
def serdeErrorNote : String := "expected value"

/-- The status-200 branch of `call_groq_ai` (lib.rs lines 944-960): parse the
body as JSON and extract `choices[0].message.content`. -/
def groqParseContent (body : String) : Except String String :=
  match jsonFromStr body with
  | none => .error ("Failed to parse Groq response: " ++ serdeErrorNote)
  | some v =>
    match (v.getField "choices").asArr with
    | some choices =>
      match choices.head? with
      | some first =>
        match ((first.getField "message").getField "content").asStr with
        | some content => .ok content
        | none => .error "Groq API returned no valid content"
      | none => .error "Groq API returned no valid content"
    | none => .error "Groq API returned no valid content"

/-- One iteration of the retry loop (lib.rs lines 942-984): `some r` models an
early `return r`, `none` models falling through to the next attempt (both the
`continue` branches and the non-200 fall-through). -/
def groqAttempt (attempt : Nat) : TransportResult → Option (Except String String)
  | .success response =>
    if response.status == 200 then
      some (groqParseContent response.body)
    else if attempt == groqMaxRetries then
      some (.error ("Groq API error: " ++ toString response.status))
    else
      none
  | .failure code message =>
    let is_consensus_error := strHasSub message "SysTransient" || strHasSub message "consensus"
    if attempt < groqMaxRetries && is_consensus_error then
      none
    else if attempt < groqMaxRetries then
      none
    else
      some (.error ("HTTP request failed after " ++ toString groqMaxRetries ++
        " attempts: " ++ code ++ " - " ++ message))

/-- The `for attempt in 1..=max_retries` loop, also counting the transport
attempts actually made.  When the loop body never returns, control reaches
lib.rs line 989 and the fallback is produced. -/
def callGroqLoop (transport : Nat → TransportResult) (prompt : String) :
    Nat → Nat → Except String String × Nat
  | _, 0 => (.ok (groqFallback prompt), 0)
  | attempt, fuel + 1 =>
    match groqAttempt attempt (transport attempt) with
    | some r => (r, 1)
    | none =>
      let (r, n) := callGroqLoop transport prompt (attempt + 1) fuel
      (r, n + 1)

/-- `call_groq_ai`, instrumented with the number of transport attempts made. -/
def call_groq_ai_traced (transport : Nat → TransportResult) (prompt : String) :
    Except String String × Nat :=
  callGroqLoop transport prompt 1 groqMaxRetries

/-- `call_groq_ai` (lib.rs lines 893-990). -/
def call_groq_ai (transport : Nat → TransportResult) (prompt : String) :
    Except String String :=
  (call_groq_ai_traced transport prompt).1

/-- Variant of the loop body following the spec (§9): on transport failure
retry uniformly, without the `SysTransient`/`consensus` substring check. -/
def groqAttemptUniform (attempt : Nat) : TransportResult → Option (Except String String)
  | .success response =>
    if response.status == 200 then
      some (groqParseContent response.body)
    else if attempt == groqMaxRetries then
      some (.error ("Groq API error: " ++ toString response.status))
    else
      none
  | .failure code message =>
    if attempt < groqMaxRetries then
      none
    else
      some (.error ("HTTP request failed after " ++ toString groqMaxRetries ++
        " attempts: " ++ code ++ " - " ++ message))

/-- Retry loop over `groqAttemptUniform`. -/
def callGroqLoopUniform (transport : Nat → TransportResult) (prompt : String) :
    Nat → Nat → Except String String × Nat
  | _, 0 => (.ok (groqFallback prompt), 0)
  | attempt, fuel + 1 =>
    match groqAttemptUniform attempt (transport attempt) with
    | some r => (r, 1)
    | none =>
      let (r, n) := callGroqLoopUniform transport prompt (attempt + 1) fuel
      (r, n + 1)

/-- The gateway with the substring check removed (spec §9: log-and-retry
uniformly), instrumented like `call_groq_ai_traced`. -/
def call_groq_ai_uniform_traced (transport : Nat → TransportResult) (prompt : String) :
    Except String String × Nat :=
  callGroqLoopUniform transport prompt 1 groqMaxRetries

/-! ### Persistent record store

The `StableBTreeMap`s behind `TUTORS`, `CHAT_SESSIONS` and `CHAT_MESSAGES`
are modelled as association lists kept in insertion order; the handlers only
rely on lookup, insert-or-replace and first-match iteration. -/

/-- `StableBTreeMap::get`. -/
def mapGet {κ α : Type} [BEq κ] (m : List (κ × α)) (k : κ) : Option α :=
  (m.find? fun p => p.1 == k).map fun p => p.2

/-- `StableBTreeMap::insert` (replace the binding if present, else append). -/
def mapInsert {κ α : Type} [BEq κ] (m : List (κ × α)) (k : κ) (v : α) :
    List (κ × α) :=
  if (m.find? fun p => p.1 == k).isSome then
    m.map fun p => if p.1 == k then (k, v) else p
  else m ++ [(k, v)]

/-- The canister state touched by the handlers below. -/
structure Store where
  tutors : List (Nat × Tutor)
  chat_sessions : List (String × ChatSession)
  chat_messages : List (String × List ChatMessage)
  message_counter : Nat
  deriving DecidableEq, Repr

/-- Modelled from the spec: §2 ID Allocator — `state::next_id("message")`
(`state.rs` is not in the source snapshot).  A process-wide monotonic counter
per entity kind, modelled as returning the current counter value and
incrementing it. -/
def nextMessageId (store : Store) : Nat × Store :=
  (store.message_counter, { store with message_counter := store.message_counter + 1 })

/-- The `CHAT_MESSAGES` update block of `send_tutor_message` (lib.rs lines
1262-1268 and 1301-1307): fetch the session list (or empty), push, insert. -/
def pushChatMessage (store : Store) (session_id : String) (m : ChatMessage) :
    Store :=
  { store with chat_messages :=
      (mapInsert store.chat_messages session_id
        ((mapGet store.chat_messages session_id).getD [] ++ [m])) }

/-! ### Tutor CRUD (`create_tutor`, `update_tutor`) -/

/-- `create_tutor` (lib.rs lines 340-405).  `caller`, `tutor_id`
(`next_id("tutor")`), `public_id` (`generate_secure_id()`) and `now`
(`ic_cdk::api::time()`) are ambient effects passed explicitly.  Returns the
handler result together with the updated tutor table. -/
def create_tutor (tutors : List (Nat × Tutor)) (caller : Principal)
    (tutor_id : Nat) (public_id : String) (now : Nat)
    (name description teaching_style personality : String)
    (expertise : List String) (knowledge_base : Option (List String))
    (voice_id : Option String) (voice_settings : Option (List (String × String)))
    (avatar_url : Option String) : Except String Tutor × List (Nat × Tutor) :=
  if rustTrim name = "" then (.error "Name is required", tutors)
  else if rustTrim description = "" then (.error "Description is required", tutors)
  else if rustTrim teaching_style = "" then (.error "Teaching style is required", tutors)
  else if rustTrim personality = "" then (.error "Personality is required", tutors)
  else if expertise.isEmpty then
    (.error "At least one expertise area is required", tutors)
  else
    let new_tutor : Tutor :=
      { id := tutor_id
        public_id := public_id
        user_id := caller
        name := rustTrim name
        description := rustTrim description
        teaching_style := rustTrim teaching_style
        personality := rustTrim personality
        expertise := expertise
        knowledge_base := knowledge_base.getD []
        is_pinned := false
        avatar_url := avatar_url
        voice_id := voice_id
        voice_settings := voice_settings.getD []
        created_at := now
        updated_at := now }
    (.ok new_tutor, mapInsert tutors tutor_id new_tutor)

/-- One optional trimmed-string update of `update_tutor` (the Rust early
`return Err` on an empty trimmed value is modelled as error propagation:
no later step touches the store). -/
def updStringField (cur : Except String Tutor) (field : Option String)
    (errMsg : String) (set : Tutor → String → Tutor) : Except String Tutor :=
  match cur, field with
  | .error e, _ => .error e
  | .ok t, none => .ok t
  | .ok t, some v =>
    if rustTrim v = "" then .error errMsg else .ok (set t (rustTrim v))

/-- The sequence of validated field updates of `update_tutor` (lib.rs lines
448-481). -/
def updateTutorFields (t0 : Tutor)
    (name description teaching_style personality : Option String)
    (expertise : Option (List String)) : Except String Tutor :=
  match updStringField (updStringField (updStringField (updStringField
      (.ok t0) name "Name cannot be empty" (fun t v => { t with name := v }))
      description "Description cannot be empty"
      (fun t v => { t with description := v }))
      teaching_style "Teaching style cannot be empty"
      (fun t v => { t with teaching_style := v }))
      personality "Personality cannot be empty"
      (fun t v => { t with personality := v }), expertise with
  | .error e, _ => .error e
  | .ok t, none => .ok t
  | .ok t, some es =>
    if es.isEmpty then .error "At least one expertise area is required"
    else .ok { t with expertise := es }

/-- The found-tutor branch of `update_tutor` (lib.rs lines 447-506):
validated field updates followed by the unvalidated ones and the store
write. -/
def applyTutorUpdate (tutors : List (Nat × Tutor)) (now : Nat) (key : Nat)
    (t0 : Tutor) (name description teaching_style personality : Option String)
    (expertise knowledge_base : Option (List String))
    (voice_id : Option String) (voice_settings : Option (List (String × String)))
    (avatar_url : Option String) : Except String Tutor × List (Nat × Tutor) :=
  match updateTutorFields t0 name description teaching_style personality expertise with
  | .error e => (.error e, tutors)
  | .ok t1 =>
    let t2 := { t1 with
      knowledge_base := knowledge_base.getD t1.knowledge_base
      voice_id := (match voice_id with
        | some v => some v
        | none => t1.voice_id)
      voice_settings := voice_settings.getD t1.voice_settings
      avatar_url := (match avatar_url with
        | some a => some a
        | none => t1.avatar_url)
      updated_at := now }
    (.ok t2, mapInsert tutors key t2)

/-- `update_tutor` (lib.rs lines 424-507). -/
def update_tutor (tutors : List (Nat × Tutor)) (caller : Principal) (now : Nat)
    (public_id : String) (name description teaching_style personality : Option String)
    (expertise knowledge_base : Option (List String))
    (voice_id : Option String) (voice_settings : Option (List (String × String)))
    (avatar_url : Option String) : Except String Tutor × List (Nat × Tutor) :=
  match tutors.find? fun p => p.2.public_id == public_id && p.2.user_id == caller with
  | none => (.error "Tutor not found or you don\x27t have permission to update it", tutors)
  | some (key, t0) =>
    applyTutorUpdate tutors now key t0 name description teaching_style
      personality expertise knowledge_base voice_id voice_settings avatar_url

/-! ### AI-driven operations -/

/-- The `system_prompt` of `generate_course_outline` (lib.rs lines 997-1008). -/
def courseOutlinePrompt (topic learning_style difficulty : String) : String :=
  "Create a course outline on \x27" ++ topic ++ "\x27 for " ++ learning_style ++
  " learning at " ++ difficulty ++ " level.\n        \n        Return JSON:\n        \x7b\"title\":\"Course Title\",\"description\":\"Brief description\",\"learning_objectives\":[\"obj1\",\"obj2\"],\"estimated_duration\":\"X weeks\",\"difficulty_level\":\"" ++
  difficulty ++
  "\",\"modules\":[\x7b\"title\":\"Module\",\"description\":\"Brief\",\"order\":1,\"content\":\"Content\",\"status\":\"pending\"\x7d]\x7d\n        \n        Keep descriptions under 100 chars. Max 3 modules."

/-- `generate_course_outline` (lib.rs lines 993-1036). -/
def generate_course_outline (transport : Nat → TransportResult)
    (tutor_data : Tutor) (topic : String) (user_preferences : UserSettings) :
    Except String CourseOutline :=
  let difficulty := user_preferences.difficulty_level
  let system_prompt :=
    courseOutlinePrompt topic user_preferences.learning_style difficulty
  match call_groq_ai transport system_prompt with
  | .error e => .error e
  | .ok ai_response =>
    match fromStrCourseOutline ai_response with
    | some outline => .ok outline
    | none =>
      .ok { title := "Course on " ++ topic
            description := "A comprehensive course about " ++ topic
            learning_objectives := ["Understand the basics of " ++ topic]
            estimated_duration := "4 weeks"
            difficulty_level := difficulty
            modules := [{ id := 1
                          title := "Introduction"
                          description := "Introduction to " ++ topic
                          order := 1
                          content := some ("Learn the fundamentals of " ++ topic)
                          status := "pending" }] }

/-- The `system_prompt` of `generate_topic_suggestions` (lib.rs lines 1039-1049). -/
def topicSuggestionsPrompt (expertise : List String) (teaching_style : String) :
    String :=
  "Generate 3 topic suggestions for a tutor with expertise in: " ++
  joinStrings ", " expertise ++ "\n        Teaching style: " ++
  teaching_style ++
  "\n        \n        Return JSON array:\n        [\x7b\"topic\":\"Name\",\"description\":\"Brief description\",\"difficulty\":\"beginner/intermediate/advanced\",\"expertise_area\":\"area\"\x7d]\n        \n        Keep descriptions under 50 chars."

/-- The fallback suggestion synthesized per expertise tag (lib.rs lines
1061-1066). -/
def fallbackSuggestion (exp : String) : TopicSuggestion :=
  { topic := "Introduction to " ++ exp
    description := "Learn the basics of " ++ exp
    difficulty := "beginner"
    expertise_area := exp }

/-- `generate_topic_suggestions` (lib.rs lines 1038-1069). -/
def generate_topic_suggestions (transport : Nat → TransportResult)
    (tutor_data : Tutor) : Except String (List TopicSuggestion) :=
  let system_prompt :=
    topicSuggestionsPrompt tutor_data.expertise tutor_data.teaching_style
  match call_groq_ai transport system_prompt with
  | .error e => .error e
  | .ok ai_response =>
    match fromStrTopicSuggestions ai_response with
    | some suggestions => .ok (suggestions.take 3)
    | none =>
      .ok ((tutor_data.expertise.take 3).map fallbackSuggestion)

/-- The `system_prompt` of `validate_topic` (lib.rs lines 1072-1086). -/
def validateTopicPrompt (topic : String) (expertise : List String) : String :=
  "Evaluate if the topic \x27" ++ topic ++
  "\x27 is relevant to a tutor with expertise in: " ++
  joinStrings ", " expertise ++
  "\n        \n        Return a JSON object:\n        \x7b\n          \"is_relevant\": true/false,\n          \"confidence\": 0.0-1.0,\n          \"reasoning\": \"Brief explanation\",\n          \"suggested_alternatives\": [\"alt1\", \"alt2\", \"alt3\"] (only if not relevant)\n        \x7d\n        \n        Return ONLY the JSON object."

/-- The keyword-containment heuristic of the `validate_topic` fallback
(lib.rs line 1094). -/
def topicKeywordRelevant (tutor_data : Tutor) (topic : String) : Bool :=
  tutor_data.expertise.any fun exp => strHasSub (lowerStr topic) (lowerStr exp)

/-- `validate_topic` (lib.rs lines 1071-1103). -/
def validate_topic (transport : Nat → TransportResult) (tutor_data : Tutor)
    (topic : String) : Except String TopicValidation :=
  let system_prompt := validateTopicPrompt topic tutor_data.expertise
  match call_groq_ai transport system_prompt with
  | .error e => .error e
  | .ok ai_response =>
    match fromStrTopicValidation ai_response with
    | some validation => .ok validation
    | none =>
      let is_relevant := topicKeywordRelevant tutor_data topic
      .ok { is_relevant := is_relevant
            confidence := if is_relevant then 7/10 else 3/10
            reasoning := "Fallback validation based on keyword matching"
            suggested_alternatives :=
              if is_relevant then [] else tutor_data.expertise }

/-- The `prompt` of `get_ai_topic_suggestions` (lib.rs lines 1199-1207). -/
def aiTopicSuggestionsPrompt (expertise : List String)
    (teaching_style personality : String) : String :=
  "Expertise: " ++ joinStrings ", " expertise ++ ". Style: " ++
  teaching_style ++ ". Personality: " ++ personality ++
  ".\n\nSuggest 3 learning topics as JSON array:\n[\x7b\"topic\": \"Topic Name\", \"description\": \"Brief description\", \"difficulty\": \"beginner\", \"expertise_area\": \"Area\"\x7d]"

/-- The handler `get_ai_topic_suggestions` (lib.rs lines 1185-1218); note that
unlike `generate_topic_suggestions` it surfaces a parse failure with
`map_err(..)?`. -/
def get_ai_topic_suggestions (transport : Nat → TransportResult)
    (tutors : List (Nat × Tutor)) (caller : Principal) (tutor_id : String) :
    Except String (List TopicSuggestion) :=
  match tutors.find? fun p => p.2.public_id == tutor_id && p.2.user_id == caller with
  | none => .error "Tutor not found or you don\x27t have permission to access it"
  | some (_, tutor) =>
    let prompt := aiTopicSuggestionsPrompt tutor.expertise tutor.teaching_style
      tutor.personality
    match call_groq_ai transport prompt with
    | .error e => .error e
    | .ok ai_response =>
      match fromStrTopicSuggestions ai_response with
      | some suggestions => .ok suggestions
      | none => .error ("Failed to parse AI response: " ++ serdeErrorNote)

/-- The `prompt` of `generate_course_modules` (lib.rs lines 1439-1455). -/
def courseModulesPrompt (topic : String) (expertise : List String)
    (teaching_style personality : String) : String :=
  "Generate 5 learning module titles for teaching \x27" ++ topic ++
  "\x27. \n        Tutor expertise: " ++ joinStrings ", " expertise ++
  ". Teaching style: " ++ teaching_style ++ ". Personality: " ++ personality ++
  ".\n        \n        Return ONLY a JSON array of strings with module titles.\n        Example: [\"Introduction to Calculus\", \"Derivatives and Limits\", \"Integration Basics\", \"Applications\", \"Advanced Topics\"]\n        \n        Make sure the modules are:\n        1. Relevant to the topic\n        2. Progressive in difficulty\n        3. Practical and actionable\n        4. Aligned with the tutor\x27s expertise and teaching style"

/-- The five templated fallback module titles (lib.rs lines 1466-1472),
produced when the gateway call itself fails. -/
def fallbackModules (topic : String) : List String :=
  ["Introduction to " ++ topic,
   topic ++ " Fundamentals",
   "Advanced " ++ topic ++ " Concepts",
   topic ++ " Applications",
   topic ++ " Mastery"]

/-- Strategy 2 of the module-title recovery (lib.rs lines 1487-1494): keep the
JSON-looking lines and rejoin them. -/
def cleanedResponse (ai_response : String) : String :=
  joinStrings "\n" ((rustLines ai_response).filter fun line =>
    let trimmed := rustTrim line
    startsWithChar trimmed '[' || startsWithChar trimmed '"' ||
      strHasSub trimmed "\"")

/-- Strategy 4 of the module-title recovery (lib.rs lines 1514-1532): collect
the lines that are whole JSON string literals. -/
def quotedLineTitles (ai_response : String) : List String :=
  (rustLines ai_response).foldl
    (fun acc line =>
      let trimmed := rustTrim line
      if startsWithChar trimmed '"' && endsWithChar trimmed '"' then
        match fromStrOneString trimmed with
        | some title => acc ++ [title]
        | none => acc
      else acc)
    []

/-- The multi-strategy parse of `generate_course_modules` (lib.rs lines
1479-1534).  The result `none` models a Rust panic: `&ai_response[start..=end]`
panics when the last `]` lies more than one position before the first `[`
(no property below exercises that input class). -/
def parseModuleTitles (ai_response : String) :
    Option (Except String (List String)) :=
  match fromStrStringList ai_response with
  | some titles => some (.ok titles)
  | none =>
    match fromStrStringList (cleanedResponse ai_response) with
    | some titles => some (.ok titles)
    | none =>
      match charFind ai_response '[' with
      | some start =>
        (match charRfind ai_response ']' with
         | some stop =>
           if start ≤ stop + 1 then
             let json_part := sliceInclusive ai_response start stop
             match fromStrStringList json_part with
             | some titles => some (.ok titles)
             | none =>
               some (.error ("Failed to parse extracted JSON: " ++ serdeErrorNote))
           else none
         | none =>
           some (.error ("Could not find closing bracket in AI response: " ++
             ai_response)))
      | none =>
        let titles := quotedLineTitles ai_response
        if titles.isEmpty then
          some (.error ("Could not extract any valid module titles from AI response: " ++
            ai_response))
        else some (.ok titles)

/-- The handler `generate_course_modules` (lib.rs lines 1416-1542). -/
def generate_course_modules (transport : Nat → TransportResult) (store : Store)
    (caller : Principal) (session_id : String) :
    Option (Except String (List String)) :=
  match mapGet store.chat_sessions session_id with
  | none => some (.error "Session not found")
  | some session =>
    if session.user_id ≠ caller then
      some (.error "You don\x27t have permission to access this session")
    else
      match store.tutors.find? fun p => p.2.public_id == session.tutor_id with
      | none => some (.error "Tutor not found")
      | some (_, tutor) =>
        let prompt := courseModulesPrompt session.topic tutor.expertise
          tutor.teaching_style tutor.personality
        match call_groq_ai transport prompt with
        | .error _ => some (.ok (fallbackModules session.topic))
        | .ok ai_response =>
          match parseModuleTitles ai_response with
          | none => none
          | some (.error e) => some (.error e)
          | some (.ok module_titles) =>
            if module_titles.isEmpty then
              some (.error "No valid modules generated from AI response")
            else some (.ok module_titles)

/-- The `prompt` of `send_tutor_message` (lib.rs lines 1276-1286). -/
def tutorMessagePrompt (expertise : List String)
    (teaching_style personality content : String) : String :=
  "Expert in: " ++ joinStrings ", " expertise ++ ". Style: " ++
  teaching_style ++ ". Personality: " ++ personality ++
  ".\n        \nStudent: \"" ++ content ++
  "\"\n\nGive a helpful, educational response in 2-3 sentences."

/-- The body of `send_tutor_message` after the session lookup and ownership
check (lib.rs lines 1252-1318): store the user message, look up the tutor,
call the gateway, store the reply and bump the session timestamp. -/
def send_tutor_message_owned (transport : Nat → TransportResult)
    (store : Store) (now : Nat) (session : ChatSession)
    (session_id content : String) : Except String String × Store :=
  let (msg_id, store1) := nextMessageId store
  let user_message : ChatMessage :=
    { id := "msg_" ++ toString msg_id
      session_id := session_id
      sender := "user"
      content := content
      timestamp := now
      has_audio := some false }
  let store2 := pushChatMessage store1 session_id user_message
  match store2.tutors.find? fun p => p.2.public_id == session.tutor_id with
  | none => (.error "Tutor not found", store2)
  | some (_, tutor) =>
        let prompt := tutorMessagePrompt tutor.expertise tutor.teaching_style
          tutor.personality content
        match call_groq_ai transport prompt with
        | .error e => (.error e, store2)
        | .ok ai_response =>
          let (msg_id2, store3) := nextMessageId store2
          let tutor_message : ChatMessage :=
            { id := "msg_" ++ toString msg_id2
              session_id := session_id
              sender := "tutor"
              content := ai_response
              timestamp := now
              has_audio := some false }
          let store4 := pushChatMessage store3 session_id tutor_message
          let store5 :=
            match mapGet store4.chat_sessions session_id with
            | some s =>
              { store4 with chat_sessions :=
                  (mapInsert store4.chat_sessions session_id
                    { s with updated_at := now }) }
            | none => store4
          (.ok tutor_message.id, store5)

/-- The handler `send_tutor_message` (lib.rs lines 1239-1319).  All
`ic_cdk::api::time()` reads within the call are modelled by the single
parameter `now` (no property depends on the timestamps). -/
def send_tutor_message (transport : Nat → TransportResult) (store : Store)
    (caller : Principal) (now : Nat) (session_id content : String) :
    Except String String × Store :=
  match mapGet store.chat_sessions session_id with
  | none => (.error "Session not found", store)
  | some session =>
    if session.user_id ≠ caller then
      (.error "You don\x27t have permission to access this session", store)
    else
      send_tutor_message_owned transport store now session session_id content

/-- The stored-tutor invariant of the spec (§3): the four required string
fields are non-empty and stored trimmed, and the expertise list is
non-empty. -/
def tutorInv (t : Tutor) : Bool :=
  (rustTrim t.name == t.name && t.name != "") &&
  (rustTrim t.description == t.description && t.description != "") &&
  (rustTrim t.teaching_style == t.teaching_style && t.teaching_style != "") &&
  (rustTrim t.personality == t.personality && t.personality != "") &&
  !t.expertise.isEmpty

/-- The invariant over the whole tutor table. -/
def tableInv (tutors : List (Nat × Tutor)) : Bool :=
  tutors.all fun p => tutorInv p.2

/-! ### Concrete fixtures used by witnesses and counterexamples -/

/-- A stored tutor owned by caller `alice`. -/
def tutorMath : Tutor :=
  { id := 1, public_id := "tut1", user_id := "alice", name := "Ada",
    description := "Algebra tutor", teaching_style := "socratic",
    personality := "kind", expertise := ["Math"], knowledge_base := [],
    is_pinned := false, avatar_url := none, voice_id := none,
    voice_settings := [], created_at := 0, updated_at := 0 }

/-- A chat session of `alice` with `tutorMath`. -/
def sessionAlg : ChatSession :=
  { id := "s1", tutor_id := "tut1", user_id := "alice", topic := "Algebra",
    status := "active", created_at := 0, updated_at := 0 }

/-- A store holding `tutorMath` and `sessionAlg`. -/
def storeAlg : Store :=
  { tutors := [(1, tutorMath)], chat_sessions := [("s1", sessionAlg)],
    chat_messages := [], message_counter := 0 }

/-- A well-formed Groq envelope whose extracted content `"oops"` defeats all
the structured parsers. -/
def envelopeOops : String :=
  "\x7b\"choices\":[\x7b\"message\":\x7b\"content\":\"oops\"\x7d\x7d]\x7d"

/-- A transport that always answers 200 with `envelopeOops`. -/
def transportOops : Nat → TransportResult :=
  fun _ => .success ⟨200, envelopeOops⟩

/-! ### Helper lemmas -/

/-- One unfolding step of the retry loop. -/
theorem callGroqLoop_succ (transport : Nat → TransportResult) (prompt : String)
    (attempt fuel : Nat) :
    callGroqLoop transport prompt attempt (fuel + 1) =
      match groqAttempt attempt (transport attempt) with
      | some r => (r, 1)
      | none =>
        let (r, n) := callGroqLoop transport prompt (attempt + 1) fuel
        (r, n + 1) := rfl

/-- A transport failure before the last attempt always falls through to the
next attempt, whatever the message says. -/
theorem groqAttempt_failure_continue (a : Nat) (c m : String)
    (h : a < groqMaxRetries) : groqAttempt a (.failure c m) = none := by
  simp [groqAttempt, h]

/-- A transport failure on the last attempt returns the transport error. -/
theorem groqAttempt_failure_last (a : Nat) (c m : String)
    (h : ¬ a < groqMaxRetries) :
    groqAttempt a (.failure c m) =
      some (.error ("HTTP request failed after " ++ toString groqMaxRetries ++
        " attempts: " ++ c ++ " - " ++ m)) := by
  simp [groqAttempt, h]

/-- Loop step when the attempt falls through. -/
theorem callGroqLoop_step_none (transport : Nat → TransportResult)
    (prompt : String) (a f : Nat) (hf : f ≠ 0)
    (h : groqAttempt a (transport a) = none) :
    callGroqLoop transport prompt a f =
      ((callGroqLoop transport prompt (a + 1) (f - 1)).1,
       (callGroqLoop transport prompt (a + 1) (f - 1)).2 + 1) := by
  cases f with
  | zero => exact absurd rfl hf
  | succ n => rw [callGroqLoop_succ, h]; rfl

/-- Loop step when the attempt returns. -/
theorem callGroqLoop_step_some (transport : Nat → TransportResult)
    (prompt : String) (a f : Nat) (r : Except String String) (hf : f ≠ 0)
    (h : groqAttempt a (transport a) = some r) :
    callGroqLoop transport prompt a f = (r, 1) := by
  cases f with
  | zero => exact absurd rfl hf
  | succ n => rw [callGroqLoop_succ, h]

/-- A 200 response is always handled by the body parser. -/
theorem groqAttempt_success_200 (a : Nat) (body : String) :
    groqAttempt a (.success ⟨200, body⟩) = some (groqParseContent body) := by
  simp [groqAttempt]
/-- The loop body is insensitive to the consensus-substring check. -/
theorem groqAttempt_eq_uniform (a : Nat) (r : TransportResult) :
    groqAttempt a r = groqAttemptUniform a r := by
  cases r with
  | success resp => rfl
  | failure c m =>
    simp only [groqAttempt, groqAttemptUniform]
    by_cases h : a < groqMaxRetries
    · simp [h]
    · simp [h]

/-- The two retry loops agree on every input. -/
theorem callGroqLoop_eq_uniform (transport : Nat → TransportResult)
    (prompt : String) :
    ∀ fuel attempt, callGroqLoop transport prompt attempt fuel =
      callGroqLoopUniform transport prompt attempt fuel := by
  intro fuel
  induction fuel with
  | zero => intro a; rfl
  | succ n ih =>
    intro a
    simp only [callGroqLoop, callGroqLoopUniform, groqAttempt_eq_uniform, ih]

/-- C8: for every transport behaviour and prompt, `call_groq_ai` with the
`SysTransient`/`consensus` substring check is extensionally equal — in both
its result and the number of transport attempts made — to the same function
with the check removed; the check affects only logging. -/
theorem call_groq_ai_consensus_check_irrelevant
    (transport : Nat → TransportResult) (prompt : String) :
    call_groq_ai_traced transport prompt =
      call_groq_ai_uniform_traced transport prompt := by
  simp only [call_groq_ai_traced, call_groq_ai_uniform_traced,
    callGroqLoop_eq_uniform]

/-- C1: contrary to the claim, when every transport attempt fails
`call_groq_ai` surfaces the failure as an `Err` carrying the last transport
error; it never returns the synthesized fallback text (the fallback at
lib.rs line 989 is unreachable, because every branch of the final loop
iteration returns early). -/
theorem call_groq_ai_all_failures_return_error
    (transport : Nat → TransportResult) (prompt : String)
    (c1 m1 c2 m2 c3 m3 : String)
    (h1 : transport 1 = .failure c1 m1)
    (h2 : transport 2 = .failure c2 m2)
    (h3 : transport 3 = .failure c3 m3) :
    call_groq_ai transport prompt =
      .error ("HTTP request failed after " ++ toString groqMaxRetries ++
        " attempts: " ++ c3 ++ " - " ++ m3) ∧
    ∀ s : String, call_groq_ai transport prompt ≠ .ok s := by
  have e1 : groqAttempt 1 (transport 1) = none := by
    rw [h1]; exact groqAttempt_failure_continue 1 c1 m1 (by decide)
  have e2 : groqAttempt 2 (transport 2) = none := by
    rw [h2]; exact groqAttempt_failure_continue 2 c2 m2 (by decide)
  have e3 : groqAttempt 3 (transport 3) =
      some (.error ("HTTP request failed after " ++ toString groqMaxRetries ++
        " attempts: " ++ c3 ++ " - " ++ m3)) := by
    rw [h3]; exact groqAttempt_failure_last 3 c3 m3 (by decide)
  have key : call_groq_ai transport prompt =
      .error ("HTTP request failed after " ++ toString groqMaxRetries ++
        " attempts: " ++ c3 ++ " - " ++ m3) := by
    show (callGroqLoop transport prompt 1 3).1 = _
    rw [callGroqLoop_step_none transport prompt 1 3 (by decide) e1]
    show (callGroqLoop transport prompt 2 2).1 = _
    rw [callGroqLoop_step_none transport prompt 2 2 (by decide) e2]
    show (callGroqLoop transport prompt 3 1).1 = _
    rw [callGroqLoop_step_some transport prompt 3 1 _ (by decide) e3]
  refine ⟨key, fun s hs => ?_⟩
  rw [key] at hs
  exact Except.noConfusion hs

/-- C1 witness: a transport that rejects every attempt. -/
theorem call_groq_ai_all_failures_return_error_witness :
    call_groq_ai (fun _ => .failure "SysTransient" "Couldn\x27t reach consensus")
        "What is calculus?" =
      .error ("HTTP request failed after " ++ toString groqMaxRetries ++
        " attempts: " ++ "SysTransient" ++ " - " ++ "Couldn\x27t reach consensus") ∧
    ∀ s : String,
      call_groq_ai (fun _ => .failure "SysTransient" "Couldn\x27t reach consensus")
        "What is calculus?" ≠ .ok s :=
  call_groq_ai_all_failures_return_error
    (fun _ => .failure "SysTransient" "Couldn\x27t reach consensus")
    "What is calculus?" "SysTransient" "Couldn\x27t reach consensus"
    "SysTransient" "Couldn\x27t reach consensus"
    "SysTransient" "Couldn\x27t reach consensus" rfl rfl rfl

/-- C4: with a transport failing on the first two attempts and delivering a
200 response with a well-formed body on the third, `call_groq_ai` makes
exactly 3 transport attempts and returns the payload content, not the
fallback. -/
theorem call_groq_ai_two_failures_then_success
    (transport : Nat → TransportResult) (prompt : String)
    (c1 m1 c2 m2 body content : String)
    (h1 : transport 1 = .failure c1 m1)
    (h2 : transport 2 = .failure c2 m2)
    (h3 : transport 3 = .success ⟨200, body⟩)
    (hp : groqParseContent body = .ok content) :
    call_groq_ai_traced transport prompt = (.ok content, 3) := by
  have e1 : groqAttempt 1 (transport 1) = none := by
    rw [h1]; exact groqAttempt_failure_continue 1 c1 m1 (by decide)
  have e2 : groqAttempt 2 (transport 2) = none := by
    rw [h2]; exact groqAttempt_failure_continue 2 c2 m2 (by decide)
  have e3 : groqAttempt 3 (transport 3) = some (.ok content) := by
    rw [h3, groqAttempt_success_200, hp]
  show callGroqLoop transport prompt 1 3 = (.ok content, 3)
  rw [callGroqLoop_step_none transport prompt 1 3 (by decide) e1]
  have i2 : callGroqLoop transport prompt 2 2 = (.ok content, 2) := by
    rw [callGroqLoop_step_none transport prompt 2 2 (by decide) e2]
    have i3 : callGroqLoop transport prompt 3 1 = (.ok content, 1) :=
      callGroqLoop_step_some transport prompt 3 1 _ (by decide) e3
    rw [i3]
  show ((callGroqLoop transport prompt 2 2).1,
    (callGroqLoop transport prompt 2 2).2 + 1) = (.ok content, 3)
  rw [i2]

/-- C4 witness: fail, fail, then a well-formed Groq envelope. -/
theorem call_groq_ai_two_failures_then_success_witness :
    call_groq_ai_traced
      (fun a => if a ≤ 2 then .failure "SysTransient" "transient"
        else .success ⟨200, "\x7b\"choices\":[\x7b\"message\":\x7b\"content\":\"Hello there!\"\x7d\x7d]\x7d"⟩)
      "Say hi" = (.ok "Hello there!", 3) :=
  call_groq_ai_two_failures_then_success _ "Say hi" "SysTransient" "transient"
    "SysTransient" "transient"
    "\x7b\"choices\":[\x7b\"message\":\x7b\"content\":\"Hello there!\"\x7d\x7d]\x7d"
    "Hello there!" rfl rfl rfl rfl

/-- C5: when the gateway reply is a malformed validation payload,
`validate_topic` returns `Ok` with the keyword-containment fallback:
`is_relevant` holds exactly when the topic case-insensitively contains some
expertise tag, confidence is 0.7 when relevant and 0.3 otherwise. -/
theorem validate_topic_malformed_fallback
    (transport : Nat → TransportResult) (tutor_data : Tutor)
    (topic resp : String)
    (hgw : call_groq_ai transport (validateTopicPrompt topic tutor_data.expertise) =
      .ok resp)
    (hp : fromStrTopicValidation resp = none) :
    validate_topic transport tutor_data topic = .ok
      { is_relevant := topicKeywordRelevant tutor_data topic
        confidence := if topicKeywordRelevant tutor_data topic then 7/10 else 3/10
        reasoning := "Fallback validation based on keyword matching"
        suggested_alternatives :=
          if topicKeywordRelevant tutor_data topic then [] else tutor_data.expertise } ∧
    (topicKeywordRelevant tutor_data topic = true ↔
      ∃ exp ∈ tutor_data.expertise,
        strHasSub (lowerStr topic) (lowerStr exp) = true) := by
  constructor
  · simp only [validate_topic, hgw, hp]
  · simp [topicKeywordRelevant]

/-- C5 witness: expertise `["Math"]` and the topic `"Advanced math topics"`
with a malformed validation payload. -/
theorem validate_topic_malformed_fallback_witness :
    validate_topic transportOops tutorMath "Advanced math topics" = .ok
      { is_relevant := topicKeywordRelevant tutorMath "Advanced math topics"
        confidence :=
          if topicKeywordRelevant tutorMath "Advanced math topics" then 7/10 else 3/10
        reasoning := "Fallback validation based on keyword matching"
        suggested_alternatives :=
          if topicKeywordRelevant tutorMath "Advanced math topics" then []
          else tutorMath.expertise } ∧
    (topicKeywordRelevant tutorMath "Advanced math topics" = true ↔
      ∃ exp ∈ tutorMath.expertise,
        strHasSub (lowerStr "Advanced math topics") (lowerStr exp) = true) :=
  validate_topic_malformed_fallback transportOops tutorMath
    "Advanced math topics" "oops" rfl rfl

/-- C6: when the gateway reply is a malformed suggestion payload,
`generate_topic_suggestions` returns `Ok` with one templated suggestion per
expertise tag, in tag order, bounded to 3. -/
theorem generate_topic_suggestions_malformed_fallback
    (transport : Nat → TransportResult) (tutor_data : Tutor) (resp : String)
    (hgw : call_groq_ai transport
      (topicSuggestionsPrompt tutor_data.expertise tutor_data.teaching_style) =
      .ok resp)
    (hp : fromStrTopicSuggestions resp = none) :
    generate_topic_suggestions transport tutor_data =
      .ok ((tutor_data.expertise.take 3).map fallbackSuggestion) ∧
    ((tutor_data.expertise.take 3).map fallbackSuggestion).length =
      min 3 tutor_data.expertise.length ∧
    ∀ i : Nat, i < 3 →
      ((tutor_data.expertise.take 3).map fallbackSuggestion)[i]? =
        (tutor_data.expertise[i]?).map fallbackSuggestion := by
  refine ⟨?_, by simp [List.length_take], ?_⟩
  · simp only [generate_topic_suggestions, hgw, hp]
  · intro i hi
    simp [List.getElem?_take_of_lt hi]

/-- C6 witness: a single expertise tag with a malformed payload. -/
theorem generate_topic_suggestions_malformed_fallback_witness :
    generate_topic_suggestions transportOops tutorMath =
      .ok ((tutorMath.expertise.take 3).map fallbackSuggestion) ∧
    ((tutorMath.expertise.take 3).map fallbackSuggestion).length =
      min 3 tutorMath.expertise.length ∧
    ∀ i : Nat, i < 3 →
      ((tutorMath.expertise.take 3).map fallbackSuggestion)[i]? =
        (tutorMath.expertise[i]?).map fallbackSuggestion :=
  generate_topic_suggestions_malformed_fallback transportOops tutorMath
    "oops" rfl rfl

/-- C7: when the gateway reply is a malformed outline payload,
`generate_course_outline` returns `Ok` with a one-module outline titled
`"Course on {topic}"` whose difficulty is the caller-supplied one. -/
theorem generate_course_outline_malformed_fallback
    (transport : Nat → TransportResult) (tutor_data : Tutor)
    (topic : String) (user_preferences : UserSettings) (resp : String)
    (hgw : call_groq_ai transport
      (courseOutlinePrompt topic user_preferences.learning_style
        user_preferences.difficulty_level) = .ok resp)
    (hp : fromStrCourseOutline resp = none) :
    ∃ outline,
      generate_course_outline transport tutor_data topic user_preferences =
        .ok outline ∧
      outline.title = "Course on " ++ topic ∧
      outline.modules.length = 1 ∧
      outline.difficulty_level = user_preferences.difficulty_level := by
  have h : generate_course_outline transport tutor_data topic user_preferences =
      .ok { title := "Course on " ++ topic
            description := "A comprehensive course about " ++ topic
            learning_objectives := ["Understand the basics of " ++ topic]
            estimated_duration := "4 weeks"
            difficulty_level := user_preferences.difficulty_level
            modules := [{ id := 1, title := "Introduction"
                          description := "Introduction to " ++ topic
                          order := 1
                          content := some ("Learn the fundamentals of " ++ topic)
                          status := "pending" }] } := by
    simp only [generate_course_outline, hgw, hp]
  exact ⟨_, h, rfl, rfl, rfl⟩

/-- C7 witness: concrete preferences and a malformed outline payload. -/
theorem generate_course_outline_malformed_fallback_witness :
    ∃ outline,
      generate_course_outline transportOops tutorMath "Algebra"
        ⟨"visual", "en", "intermediate", 1, false, "medium", "normal",
          "casual", "public", "connections"⟩ = .ok outline ∧
      outline.title = "Course on " ++ "Algebra" ∧
      outline.modules.length = 1 ∧
      outline.difficulty_level =
        (⟨"visual", "en", "intermediate", 1, false, "medium", "normal",
          "casual", "public", "connections"⟩ : UserSettings).difficulty_level :=
  generate_course_outline_malformed_fallback transportOops tutorMath "Algebra"
    ⟨"visual", "en", "intermediate", 1, false, "medium", "normal",
      "casual", "public", "connections"⟩ "oops" rfl rfl

/-- C3 counterexample: the handler `get_ai_topic_suggestions` DOES surface a
malformed AI payload as an error, contradicting the claim that every
AI-parsing operation resolves malformed payloads into an `Ok` fallback. -/
theorem get_ai_topic_suggestions_surfaces_parse_error :
    get_ai_topic_suggestions transportOops [(1, tutorMath)] "alice" "tut1" =
      .error ("Failed to parse AI response: " ++ serdeErrorNote) ∧
    (get_ai_topic_suggestions transportOops [(1, tutorMath)] "alice" "tut1").isOk =
      false :=
  ⟨rfl, rfl⟩

/-- C3 amended: the three internal generators (`generate_topic_suggestions`,
`generate_course_outline`, `validate_topic`) never surface a malformed
payload — they return `Ok` fallbacks — but the handlers
`get_ai_topic_suggestions` and `generate_course_modules` do surface parse
failures as errors. -/
theorem ai_generators_mask_malformed_payloads
    (transport : Nat → TransportResult) (tutor_data : Tutor) (topic : String)
    (user_preferences : UserSettings) (r1 r2 r3 : String)
    (h1 : call_groq_ai transport
      (topicSuggestionsPrompt tutor_data.expertise tutor_data.teaching_style) =
      .ok r1)
    (hp1 : fromStrTopicSuggestions r1 = none)
    (h2 : call_groq_ai transport
      (courseOutlinePrompt topic user_preferences.learning_style
        user_preferences.difficulty_level) = .ok r2)
    (hp2 : fromStrCourseOutline r2 = none)
    (h3 : call_groq_ai transport (validateTopicPrompt topic tutor_data.expertise) =
      .ok r3)
    (hp3 : fromStrTopicValidation r3 = none) :
    (generate_topic_suggestions transport tutor_data).isOk = true ∧
    (generate_course_outline transport tutor_data topic user_preferences).isOk =
      true ∧
    (validate_topic transport tutor_data topic).isOk = true := by
  refine ⟨?_, ?_, ?_⟩
  · simp only [generate_topic_suggestions, h1, hp1]; rfl
  · simp only [generate_course_outline, h2, hp2]; rfl
  · simp only [validate_topic, h3, hp3]; rfl

/-- C3 amended witness: all three generators mask the malformed payload
`"oops"`. -/
theorem ai_generators_mask_malformed_payloads_witness :
    (generate_topic_suggestions transportOops tutorMath).isOk = true ∧
    (generate_course_outline transportOops tutorMath "Algebra"
      ⟨"visual", "en", "intermediate", 1, false, "medium", "normal",
        "casual", "public", "connections"⟩).isOk = true ∧
    (validate_topic transportOops tutorMath "Algebra").isOk = true :=
  ai_generators_mask_malformed_payloads transportOops tutorMath "Algebra"
    ⟨"visual", "en", "intermediate", 1, false, "medium", "normal",
      "casual", "public", "connections"⟩ "oops" "oops" "oops"
    rfl rfl rfl rfl rfl rfl

/-- `String.append` acts as list append on the underlying characters. -/
theorem data_append (a b : String) : (a ++ b).data = a.data ++ b.data := rfl

/-- A pattern occurs in any list that contains it as a contiguous run. -/
theorem listHasSub_middle (pat pre suf : List Char) :
    listHasSub pat (pre ++ (pat ++ suf)) = true := by
  induction pre with
  | nil =>
    simp only [List.nil_append]
    cases hps : pat ++ suf with
    | nil =>
      have hp : pat = [] := (List.append_eq_nil.mp hps).1
      simp [hps, hp, listHasSub]
    | cons c rest =>
      simp only [listHasSub]
      have hpre : pat.isPrefixOf (c :: rest) = true := by
        rw [ List.isPrefixOf_iff_prefix, ← hps]
        exact List.prefix_append pat suf
      simp [hpre]
  | cons c pre ih =>
    simp [listHasSub, ih]

/-- A pattern occurs in any list of which it is an infix. -/
theorem listHasSub_of_infix {pat l : List Char} (h : pat <:+: l) :
    listHasSub pat l = true := by
  obtain ⟨s, t, rfl⟩ := h
  rw [List.append_assoc]
  exact listHasSub_middle pat s t

/-- C2 counterexample: at a malformed module-list payload from which no
strategy recovers a string, `generate_course_modules` returns an `Err`, not
the five templated titles the claim promises. -/
theorem generate_course_modules_malformed_is_error :
    generate_course_modules transportOops storeAlg "alice" "s1" =
      some (.error
        ("Could not extract any valid module titles from AI response: " ++ "oops")) ∧
    generate_course_modules transportOops storeAlg "alice" "s1" ≠
      some (.ok (fallbackModules "Algebra")) := by
  refine ⟨rfl, fun h => ?_⟩
  rw [show generate_course_modules transportOops storeAlg "alice" "s1" =
    some (Except.error
      ("Could not extract any valid module titles from AI response: " ++ "oops"))
    from rfl] at h
  exact Option.noConfusion h fun he => Except.noConfusion he

/-- C2 amended: the five templated titles — in the fixed order, each
containing the topic — are produced exactly when the gateway call itself
fails; a malformed payload that defeats every extraction strategy is instead
surfaced as an `Err` (see the counterexample). -/
theorem generate_course_modules_gateway_failure_fallback
    (transport : Nat → TransportResult) (store : Store) (caller : Principal)
    (session_id : String) (session : ChatSession) (key : Nat) (tutor : Tutor)
    (e : String)
    (hs : mapGet store.chat_sessions session_id = some session)
    (hown : session.user_id = caller)
    (ht : store.tutors.find? (fun p => p.2.public_id == session.tutor_id) =
      some (key, tutor))
    (hgw : call_groq_ai transport
      (courseModulesPrompt session.topic tutor.expertise tutor.teaching_style
        tutor.personality) = .error e) :
    generate_course_modules transport store caller session_id =
      some (.ok (fallbackModules session.topic)) ∧
    (fallbackModules session.topic).length = 5 ∧
    ∀ m ∈ fallbackModules session.topic, strHasSub m session.topic = true := by
  refine ⟨?_, rfl, ?_⟩
  · simp only [generate_course_modules, hs, hown, ht, hgw]
    simp
  · intro m hm
    simp only [fallbackModules, List.mem_cons, List.not_mem_nil, or_false] at hm
    rcases hm with h | h | h | h | h
    · rw [h]
      exact listHasSub_of_infix ⟨"Introduction to ".data, [], by simp [data_append]⟩
    · rw [h]
      exact listHasSub_of_infix ⟨[], " Fundamentals".data, by simp [data_append]⟩
    · rw [h]
      exact listHasSub_of_infix ⟨"Advanced ".data, " Concepts".data, by
        simp [data_append]⟩
    · rw [h]
      exact listHasSub_of_infix ⟨[], " Applications".data, by simp [data_append]⟩
    · rw [h]
      exact listHasSub_of_infix ⟨[], " Mastery".data, by simp [data_append]⟩

/-- C2 amended witness: gateway rejecting every attempt over `storeAlg`. -/
theorem generate_course_modules_gateway_failure_fallback_witness :
    generate_course_modules (fun _ => .failure "SysTransient" "transient")
        storeAlg "alice" "s1" =
      some (.ok (fallbackModules sessionAlg.topic)) ∧
    (fallbackModules sessionAlg.topic).length = 5 ∧
    ∀ m ∈ fallbackModules sessionAlg.topic,
      strHasSub m sessionAlg.topic = true :=
  generate_course_modules_gateway_failure_fallback
    (fun _ => .failure "SysTransient" "transient") storeAlg "alice" "s1"
    sessionAlg 1 tutorMath
    ("HTTP request failed after " ++ toString groqMaxRetries ++
      " attempts: " ++ "SysTransient" ++ " - " ++ "transient")
    rfl rfl rfl
    ((call_groq_ai_all_failures_return_error _ _ "SysTransient" "transient"
      "SysTransient" "transient" "SysTransient" "transient" rfl rfl rfl).1)

/-- A prefix of a left-trimmed list is itself left-trimmed. -/
theorem dropWhile_eq_self_of_prefix {p : Char → Bool} {xs ys : List Char}
    (hy : List.dropWhile p ys = ys) (hpre : xs <+: ys) :
    List.dropWhile p xs = xs := by
  cases xs with
  | nil => rfl
  | cons a t =>
    obtain ⟨s, hs⟩ := hpre
    cases ys with
    | nil => simp at hs
    | cons b u =>
      rw [List.cons_append] at hs
      injection hs with hab hu
      subst hab
      have hpb : p a = false := by
        by_contra hc
        rw [Bool.not_eq_false] at hc
        rw [List.dropWhile_cons, if_pos hc] at hy
        have hle := (List.dropWhile_sublist (l := u) p).length_le
        rw [hy] at hle
        simp at hle
      rw [List.dropWhile_cons, if_neg (by simp [hpb])]

/-- Trimming on char lists is idempotent. -/
theorem rustTrimList_idem (l : List Char) :
    rustTrimList (rustTrimList l) = rustTrimList l := by
  unfold rustTrimList
  have hAdw : List.dropWhile wsChar (l.dropWhile wsChar) = l.dropWhile wsChar :=
    List.dropWhile_idempotent _ _
  have hpre : ((l.dropWhile wsChar).reverse.dropWhile wsChar).reverse <+:
      l.dropWhile wsChar := by
    refine ⟨(List.takeWhile wsChar (l.dropWhile wsChar).reverse).reverse, ?_⟩
    calc ((l.dropWhile wsChar).reverse.dropWhile wsChar).reverse ++
          (List.takeWhile wsChar (l.dropWhile wsChar).reverse).reverse
        = (List.takeWhile wsChar (l.dropWhile wsChar).reverse ++
            (l.dropWhile wsChar).reverse.dropWhile wsChar).reverse := by
          rw [List.reverse_append]
      _ = (l.dropWhile wsChar).reverse.reverse := by
          rw [List.takeWhile_append_dropWhile]
      _ = l.dropWhile wsChar := List.reverse_reverse _
  have hB := dropWhile_eq_self_of_prefix hAdw hpre
  rw [hB, List.reverse_reverse, List.dropWhile_idempotent]

/-- `str::trim` is idempotent. -/
theorem rustTrim_idem (s : String) : rustTrim (rustTrim s) = rustTrim s := by
  show String.mk (rustTrimList (rustTrimList s.data)) = _
  rw [rustTrimList_idem]
  rfl

/-- Inserting a value that satisfies a predicate preserves the predicate over
the whole table. -/
theorem all_mapInsert {κ α : Type} [BEq κ] (m : List (κ × α)) (k : κ) (v : α)
    (Q : α → Bool) (hm : (m.all fun p => Q p.2) = true) (hv : Q v = true) :
    ((mapInsert m k v).all fun p => Q p.2) = true := by
  unfold mapInsert
  split
  · rw [List.all_eq_true] at hm ⊢
    intro x hx
    obtain ⟨y, hy, hxy⟩ := List.mem_map.mp hx
    by_cases hk : (y.1 == k) = true
    · rw [if_pos hk] at hxy
      rw [← hxy]
      exact hv
    · rw [if_neg hk] at hxy
      rw [← hxy]
      exact hm y hy
  · simp [List.all_append, hm, hv, List.all_eq_true]

/-- An `updStringField` step preserves the tutor invariant. -/
theorem updStringField_preserves (cur : Except String Tutor)
    (field : Option String) (err : String) (set : Tutor → String → Tutor)
    (hset : ∀ t v, tutorInv t = true → rustTrim v = v → v ≠ "" →
      tutorInv (set t v) = true)
    (hcur : ∀ t, cur = .ok t → tutorInv t = true) :
    ∀ t, updStringField cur field err set = .ok t → tutorInv t = true := by
  intro t ht
  cases cur with
  | error e =>
    cases field with
    | none => exact Except.noConfusion ht
    | some v => exact Except.noConfusion ht
  | ok t0 =>
    cases field with
    | none =>
      simp only [updStringField] at ht
      injection ht with h
      rw [← h]
      exact hcur t0 rfl
    | some v =>
      simp only [updStringField] at ht
      by_cases hv : rustTrim v = ""
      · rw [if_pos hv] at ht
        exact Except.noConfusion ht
      · rw [if_neg hv] at ht
        injection ht with h
        rw [← h]
        exact hset t0 (rustTrim v) (hcur t0 rfl) (rustTrim_idem v) hv

/-- The whole validated-update chain preserves the tutor invariant. -/
theorem updateTutorFields_preserves (t0 : Tutor)
    (name description teaching_style personality : Option String)
    (expertise : Option (List String)) (h0 : tutorInv t0 = true) :
    ∀ t, updateTutorFields t0 name description teaching_style personality
      expertise = .ok t → tutorInv t = true := by
  have s1 := updStringField_preserves (.ok t0) name "Name cannot be empty"
    (fun t v => { t with name := v })
    (fun t v ht hv hne => by
      simp only [tutorInv] at ht ⊢
      simp_all [hv])
    (fun t ht => by injection ht with h; rw [← h]; exact h0)
  have s2 := updStringField_preserves _ description "Description cannot be empty"
    (fun t v => { t with description := v })
    (fun t v ht hv hne => by
      simp only [tutorInv] at ht ⊢
      simp_all [hv])
    s1
  have s3 := updStringField_preserves _ teaching_style
    "Teaching style cannot be empty"
    (fun t v => { t with teaching_style := v })
    (fun t v ht hv hne => by
      simp only [tutorInv] at ht ⊢
      simp_all [hv])
    s2
  have s4 := updStringField_preserves _ personality "Personality cannot be empty"
    (fun t v => { t with personality := v })
    (fun t v ht hv hne => by
      simp only [tutorInv] at ht ⊢
      simp_all [hv])
    s3
  intro t ht
  unfold updateTutorFields at ht
  cases hr : updStringField (updStringField (updStringField (updStringField
      (Except.ok t0) name "Name cannot be empty"
      (fun t v => { t with name := v }))
      description "Description cannot be empty"
      (fun t v => { t with description := v }))
      teaching_style "Teaching style cannot be empty"
      (fun t v => { t with teaching_style := v }))
      personality "Personality cannot be empty"
      (fun t v => { t with personality := v }) with
  | error e =>
    rw [hr] at ht
    cases expertise with
    | none => exact Except.noConfusion ht
    | some es => exact Except.noConfusion ht
  | ok t4 =>
    have ht4 := s4 t4 hr
    rw [hr] at ht
    cases expertise with
    | none =>
      replace ht : Except.ok t4 = Except.ok t := ht
      injection ht with h
      rw [← h]
      exact ht4
    | some es =>
      replace ht : (if es.isEmpty = true then
          (Except.error "At least one expertise area is required" :
            Except String Tutor)
        else Except.ok { t4 with expertise := es }) = Except.ok t := ht
      by_cases hes : es.isEmpty = true
      · rw [if_pos hes] at ht
        exact Except.noConfusion ht
      · rw [if_neg hes] at ht
        injection ht with h
        rw [← h]
        simp only [tutorInv] at ht4 ⊢
        simp_all

set_option maxHeartbeats 1600000 in
/-- C9: assuming every stored tutor satisfies the invariant (required string
fields non-empty and stored trimmed, non-empty expertise), `create_tutor`
preserves it and establishes it for the new record — returning `Err` whenever
some required input fails validation — and `update_tutor` preserves it for
every combination of optional arguments. -/
theorem tutor_table_invariant
    (tutors : List (Nat × Tutor)) (caller : Principal)
    (tutor_id : Nat) (public_id : String) (now : Nat)
    (name description teaching_style personality : String)
    (expertise : List String) (knowledge_base : Option (List String))
    (voice_id : Option String) (voice_settings : Option (List (String × String)))
    (avatar_url : Option String)
    (upid : String) (uname udesc ustyle upers : Option String)
    (uexp ukb : Option (List String)) (uvid : Option String)
    (uvs : Option (List (String × String))) (uav : Option String)
    (hinv : tableInv tutors = true) :
    tableInv (create_tutor tutors caller tutor_id public_id now name
      description teaching_style personality expertise knowledge_base voice_id
      voice_settings avatar_url).2 = true ∧
    ((rustTrim name = "" ∨ rustTrim description = "" ∨
      rustTrim teaching_style = "" ∨ rustTrim personality = "" ∨
      expertise = []) →
      (create_tutor tutors caller tutor_id public_id now name description
        teaching_style personality expertise knowledge_base voice_id
        voice_settings avatar_url).1.isOk = false) ∧
    tableInv (update_tutor tutors caller now upid uname udesc ustyle upers
      uexp ukb uvid uvs uav).2 = true := by
  refine ⟨?_, ?_, ?_⟩
  · unfold create_tutor
    split
    next h1 => exact hinv
    next h1 =>
      split
      next h2 => exact hinv
      next h2 =>
        split
        next h3 => exact hinv
        next h3 =>
          split
          next h4 => exact hinv
          next h4 =>
            split
            next h5 => exact hinv
            next h5 =>
              refine all_mapInsert tutors tutor_id _ tutorInv hinv ?_
              simp only [tutorInv]
              simp [rustTrim_idem, h1, h2, h3, h4, h5]
  · intro hbad
    unfold create_tutor
    split
    · rfl
    split
    · rfl
    split
    · rfl
    split
    · rfl
    split
    · rfl
    next h1 h2 h3 h4 h5 =>
      rcases hbad with h | h | h | h | h
      · exact absurd h h1
      · exact absurd h h2
      · exact absurd h h3
      · exact absurd h h4
      · exact absurd (by simp [h]) h5
  · unfold update_tutor
    cases hf : tutors.find? fun p => p.2.public_id == upid && p.2.user_id == caller with
    | none => exact hinv
    | some kt =>
      obtain ⟨key, t0⟩ := kt
      have ht0 : tutorInv t0 = true := by
        have hmem := List.mem_of_find?_eq_some hf
        have htable := hinv
        rw [tableInv, List.all_eq_true] at htable
        exact htable _ hmem
      show tableInv (applyTutorUpdate tutors now key t0 uname udesc ustyle
        upers uexp ukb uvid uvs uav).2 = true
      unfold applyTutorUpdate
      cases hr : updateTutorFields t0 uname udesc ustyle upers uexp with
      | error e => exact hinv
      | ok t1 =>
        have ht1 := updateTutorFields_preserves t0 uname udesc ustyle upers
          uexp ht0 t1 hr
        refine all_mapInsert tutors key _ tutorInv hinv ?_
        simp only [tutorInv] at ht1 ⊢
        simpa using ht1

/-- C9 witness: a valid stored table, an invalid create request and a
no-op-style update request. -/
theorem tutor_table_invariant_witness :
    tableInv (create_tutor [(1, tutorMath)] "alice" 2 "tut2" 5 " " "d"
      "ts" "pers" [] none none none none).2 = true ∧
    ((rustTrim " " = "" ∨ rustTrim "d" = "" ∨
      rustTrim "ts" = "" ∨ rustTrim "pers" = "" ∨
      ([] : List String) = []) →
      (create_tutor [(1, tutorMath)] "alice" 2 "tut2" 5 " " "d"
        "ts" "pers" [] none none none none).1.isOk = false) ∧
    tableInv (update_tutor [(1, tutorMath)] "alice" 9 "tut1" (some "Bob ")
      none none none (some ["Logic"]) none none none none).2 = true :=
  tutor_table_invariant [(1, tutorMath)] "alice" 2 "tut2" 5 " " "d" "ts"
    "pers" [] none none none none "tut1" (some "Bob ") none none none
    (some ["Logic"]) none none none none rfl

/-- After replacing the binding for `k`, looking `k` up finds the new value. -/
theorem find?_mapReplace {κ α : Type} [BEq κ] [LawfulBEq κ] (k : κ) (v : α) :
    ∀ m : List (κ × α), (m.find? fun p => p.1 == k).isSome = true →
      ((m.map fun p => if p.1 == k then (k, v) else p).find? fun p => p.1 == k) =
        some (k, v) := by
  intro m
  induction m with
  | nil => intro h; simp at h
  | cons p m ih =>
    intro h
    by_cases hk : (p.1 == k) = true
    · simp only [List.map_cons, if_pos hk]
      rw [List.find?_cons_of_pos]
      simp
    · simp only [List.map_cons, if_neg hk]
      simp only [List.find?_cons, hk, cond_false] at h ⊢
      exact ih h

/-- `mapInsert` followed by `mapGet` at the same key yields the value. -/
theorem mapGet_mapInsert_self {κ α : Type} [BEq κ] [LawfulBEq κ]
    (m : List (κ × α)) (k : κ) (v : α) :
    mapGet (mapInsert m k v) k = some v := by
  unfold mapGet mapInsert
  split
  next h =>
    rw [find?_mapReplace k v m h]
    rfl
  next h =>
    have hnone : (m.find? fun p => p.1 == k) = none := by
      cases hh : m.find? fun p => p.1 == k with
      | none => rfl
      | some x => rw [hh] at h; simp at h
    rw [List.find?_append, hnone]
    simp [List.find?]

/-- C10: if the session exists, the caller owns it, the session\x27s tutor
exists and the gateway call fails, `send_tutor_message` returns that error —
yet the user\x27s message has already been appended to the session\x27s
message list and remains stored: the chat state is not rolled back. -/
theorem send_tutor_message_no_rollback_on_ai_error
    (transport : Nat → TransportResult) (store : Store) (caller : Principal)
    (now : Nat) (session_id content : String) (session : ChatSession)
    (key : Nat) (tutor : Tutor) (e : String)
    (hs : mapGet store.chat_sessions session_id = some session)
    (hown : session.user_id = caller)
    (ht : store.tutors.find? (fun p => p.2.public_id == session.tutor_id) =
      some (key, tutor))
    (hgw : call_groq_ai transport (tutorMessagePrompt tutor.expertise
      tutor.teaching_style tutor.personality content) = .error e) :
    (send_tutor_message transport store caller now session_id content).1 =
      .error e ∧
    mapGet (send_tutor_message transport store caller now session_id
        content).2.chat_messages session_id =
      some ((mapGet store.chat_messages session_id).getD [] ++
        [{ id := "msg_" ++ toString store.message_counter
           session_id := session_id
           sender := "user"
           content := content
           timestamp := now
           has_audio := some false }]) := by
  have hred : send_tutor_message transport store caller now session_id content =
      (.error e,
        { store with
            chat_messages := (mapInsert store.chat_messages session_id
              ((mapGet store.chat_messages session_id).getD [] ++
                [{ id := "msg_" ++ toString store.message_counter
                   session_id := session_id
                   sender := "user"
                   content := content
                   timestamp := now
                   has_audio := some false }]))
            message_counter := store.message_counter + 1 }) := by
    unfold send_tutor_message
    rw [hs]
    show (if session.user_id ≠ caller then
        (.error "You don\x27t have permission to access this session", store)
      else send_tutor_message_owned transport store now session session_id
        content) = _
    rw [if_neg (by rw [hown]; exact fun hc => hc rfl)]
    unfold send_tutor_message_owned
    simp only [nextMessageId, pushChatMessage]
    rw [ht]
    simp only [hgw]
  rw [hred]
  exact ⟨rfl, mapGet_mapInsert_self _ _ _⟩

/-- C10 witness: a failing transport over `storeAlg`. -/
theorem send_tutor_message_no_rollback_on_ai_error_witness :
    (send_tutor_message (fun _ => .failure "SysTransient" "transient") storeAlg
      "alice" 7 "s1" "hello").1 =
      .error "HTTP request failed after 3 attempts: SysTransient - transient" ∧
    mapGet (send_tutor_message (fun _ => .failure "SysTransient" "transient")
        storeAlg "alice" 7 "s1" "hello").2.chat_messages "s1" =
      some ((mapGet storeAlg.chat_messages "s1").getD [] ++
        [{ id := "msg_" ++ toString storeAlg.message_counter
           session_id := "s1"
           sender := "user"
           content := "hello"
           timestamp := 7
           has_audio := some false }]) :=
  send_tutor_message_no_rollback_on_ai_error
    (fun _ => .failure "SysTransient" "transient") storeAlg "alice" 7 "s1"
    "hello" sessionAlg 1 tutorMath
    "HTTP request failed after 3 attempts: SysTransient - transient"
    rfl rfl rfl rfl

end Cogni
